import Mathlib

/-!
Shallow embedding of the reconciliation core of the cloud-on-k8s operator:
the version comparator and upgrade-path validator, the Elasticsearch cluster
status tracker (package reconcile), and the esconfig convergence controller
(package esconfig).

Machine integers of the source (int32 counts, HTTP status codes) are modelled
as Nat: all modelled quantities are small non-negative counts and codes, so no
overflow behaviour is observable. Fallible Go functions returning (T, error)
are modelled as Except String T or as explicit outcome types. External
collaborators (the Kubernetes client, the HTTP transport, the readiness
predicate) are modelled as explicit outcome data passed into the functions
that consume them, mirroring exactly how the source branches on their results.
-/

namespace CloudOnK8s

/-! ### Version comparator

Modelled from the spec: the package pkg/controller/common/version is not part
of the provided sources. Per the spec, a version string is parsed as
major.minor.patch with an optional pre-release qualifier after a dash;
comparison is by major, then minor, then patch, numerically, and a version
with a non-empty pre-release qualifier is strictly less than the same
major.minor.patch without one. Parsing fails on non-numeric
major/minor/patch segments. -/

structure Version where
  major : Nat
  minor : Nat
  patch : Nat
  pre : String
deriving DecidableEq, Repr

/-- Splits a character list at every occurrence of the separator; always
returns at least one (possibly empty) segment, like String.splitOn. -/
def splitOnChar (c : Char) : List Char → List (List Char)
  | [] => [[]]
  | x :: xs =>
    let r := splitOnChar c xs
    if x = c then [] :: r
    else
      match r with
      | [] => [[x]]
      | seg :: rest => (x :: seg) :: rest

/-- Splits a character list at the first dash: the part before it and,
when a dash occurs, everything after it (later dashes kept verbatim). -/
def breakAtDash : List Char → List Char × Option (List Char)
  | [] => ([], none)
  | x :: xs =>
    if x = '-' then ([], some xs)
    else
      let (a, b) := breakAtDash xs
      (x :: a, b)

/-- Accumulator loop of the decimal parser; fails on any non-digit. -/
def digitsAux : List Char → Nat → Option Nat
  | [], acc => some acc
  | c :: cs, acc =>
    if c.isDigit then digitsAux cs (acc * 10 + (c.toNat - 48)) else none

/-- Parses a non-empty all-digit segment as a decimal Nat. -/
def parseNatSeg : List Char → Option Nat
  | [] => none
  | c :: cs => digitsAux (c :: cs) 0

/-- Modelled from the spec: parse a dotted version string
major.minor.patch with an optional pre-release qualifier after the first
dash; fails when any of the three numeric segments is missing or
non-numeric. -/
def Version.parse (s : String) : Except String Version :=
  let (core, preOpt) := breakAtDash s.toList
  match splitOnChar '.' core with
  | [ma, mi, pa] =>
    match parseNatSeg ma, parseNatSeg mi, parseNatSeg pa with
    | some major, some minor, some patch =>
      Except.ok { major := major, minor := minor, patch := patch,
                  pre := match preOpt with
                         | none => ""
                         | some t => String.mk t }
    | _, _, _ => Except.error (s ++ ": malformed version")
  | _ => Except.error (s ++ ": malformed version")

/-- Modelled from the spec: ordering of pre-release qualifiers. An empty
qualifier (a release) is strictly greater than any non-empty one; the spec
does not pin down the order between two distinct non-empty qualifiers, so
plain string comparison is used there. -/
def comparePre (p q : String) : Ordering :=
  if p = q then Ordering.eq
  else if p = "" then Ordering.gt
  else if q = "" then Ordering.lt
  else compare p q

/-- Modelled from the spec: comparison order major, then minor, then patch,
numerically, then the pre-release qualifier. -/
def Version.compareTo (a b : Version) : Ordering :=
  match compare a.major b.major with
  | Ordering.eq =>
    match compare a.minor b.minor with
    | Ordering.eq =>
      match compare a.patch b.patch with
      | Ordering.eq => comparePre a.pre b.pre
      | o => o
    | o => o
  | o => o

/-- Strictly-greater test on parsed versions (semver GT). -/
def Version.GT (a b : Version) : Bool :=
  a.compareTo b == Ordering.gt

/-- Greater-or-equal test on parsed versions (semver GTE). -/
def Version.GTE (a b : Version) : Bool :=
  a.compareTo b != Ordering.lt

/-- Strictly-less test on parsed versions. -/
def Version.LT (a b : Version) : Bool :=
  a.compareTo b == Ordering.lt

/-- Rendering of a parsed version back to a string, used when the status
tracker stores the lowest observed version into the status. -/
def Version.toVersionString (v : Version) : String :=
  toString v.major ++ "." ++ toString v.minor ++ "." ++ toString v.patch ++
    (if v.pre = "" then "" else "-" ++ v.pre)

/-- Modelled from the spec: the minimum version across a sequence of observed
version strings. Skipping malformed ones is not permitted: any parse failure
aborts the whole minimum computation and surfaces the error; an empty
sequence yields no minimum (none) rather than an error. -/
def minVersions : List String → Except String (Option Version)
  | [] => Except.ok none
  | s :: rest =>
    match Version.parse s, minVersions rest with
    | Except.error e, _ => Except.error e
    | Except.ok _, Except.error e => Except.error e
    | Except.ok v, Except.ok none => Except.ok (some v)
    | Except.ok v, Except.ok (some w) =>
      Except.ok (some (if Version.GT v w then w else v))

/-! ### Upgrade path validator (src/test/e2e/test/version.go) -/

/-- Embedding of isValidUpgrade: reports whether an upgrade from one version
to another version is valid. Parses both inputs; the major digits must be
equal or differ by only 1, and the source must not be greater-or-equal to
the destination. -/
def isValidUpgrade (src dst : String) : Except String Bool :=
  match Version.parse src with
  | Except.error e => Except.error ("failed to parse version: " ++ e)
  | Except.ok srcVer =>
    match Version.parse dst with
    | Except.error e => Except.error ("failed to parse version: " ++ e)
    | Except.ok dstVer =>
      let validMajorDigit :=
        dstVer.major == srcVer.major || dstVer.major == srcVer.major + 1
      Except.ok (validMajorDigit && !(Version.GTE srcVer dstVer))

/-- Embedding of IsSnapshotVersion: flags a version as a pre-release build
by testing whether its pre-release qualifier is non-empty. -/
def IsSnapshotVersion (v : Version) : Bool :=
  v.pre ≠ ""

/-! ### Cluster status tracker (package reconcile, src/unnamed/part_000)

The Elasticsearch phase and health fields are string-typed in the source
(the observed cluster health is assigned verbatim into the status), so they
are modelled as String together with the named constants the source uses. -/

def ElasticsearchReadyPhase : String := "Ready"

def ElasticsearchApplyingChangesPhase : String := "ApplyingChanges"

def ElasticsearchMigratingDataPhase : String := "MigratingData"

def ElasticsearchNodeShutdownStalledPhase : String := "NodeShutdownStalled"

def ElasticsearchResourceInvalid : String := "Invalid"

def ElasticsearchRedHealth : String := "red"

def ElasticsearchYellowHealth : String := "yellow"

def ElasticsearchGreenHealth : String := "green"

def ElasticsearchUnknownHealth : String := "unknown"

/-- One observed pod: its readiness (the external readiness predicate
k8s.IsPodReady is a collaborator, modelled as a bit carried by the pod
observation) and its version label. -/
structure Pod where
  ready : Bool
  versionLabel : String
deriving DecidableEq, Repr

/-- One declared node-group (StatefulSet) observation: its pod-template
version label. -/
structure StatefulSetTemplate where
  versionLabel : String
deriving DecidableEq, Repr

/-- The per-pass resources observation handed to the tracker. -/
structure ResourcesState where
  allPods : List Pod
  currentPods : List Pod
  statefulSets : List StatefulSetTemplate
deriving DecidableEq, Repr

/-- The external cluster-health snapshot: a health status string. -/
structure ClusterHealthSnapshot where
  healthStatus : String
deriving DecidableEq, Repr

/-- The observer state handed to the tracker; the health snapshot is
optional. -/
structure ObserverState where
  clusterHealth : Option ClusterHealthSnapshot
deriving DecidableEq, Repr

/-- The status sub-resource of the managed Elasticsearch resource. -/
structure ElasticsearchStatus where
  availableNodes : Nat
  phase : String
  health : String
  version : String
deriving DecidableEq, Repr

/-- The managed Elasticsearch resource, reduced to the part the tracker
reads and writes: its status sub-resource. -/
structure Elasticsearch where
  esStatus : ElasticsearchStatus
deriving DecidableEq, Repr

inductive EventType where
  | normal
  | warning
deriving DecidableEq, Repr

def EventReasonValidation : String := "Validation"

def EventReasonUnhealthy : String := "Unhealthy"

def EventReasonDelayed : String := "Delayed"

def EventReasonStalled : String := "Stalled"

def EventAssociationError : String := "AssociationError"

/-- One recorded event: type, reason and message. -/
structure Event where
  eventType : EventType
  reason : String
  message : String
deriving DecidableEq, Repr

/-- The reconcile state accumulated during one pass: the resource as
fetched, the in-progress status copy, and the event queue of the embedded
recorder (in enqueue order). -/
structure State where
  cluster : Elasticsearch
  status : ElasticsearchStatus
  recorder : List Event
deriving DecidableEq, Repr

/-- Embedding of NewState: the tracker starts from the fetched resource
with a deep copy of its persisted status and an empty event queue. -/
def NewState (c : Elasticsearch) : State :=
  { cluster := c, status := c.esStatus, recorder := [] }

/-- Embedding of Recorder.AddEvent: append one event to the queue. -/
def State.AddEvent (s : State) (t : EventType) (reason message : String) : State :=
  { s with recorder := s.recorder ++ [⟨t, reason, message⟩] }

/-- Embedding of Recorder.Events: the queued events in enqueue order. -/
def State.Events (s : State) : List Event :=
  s.recorder

/-- Embedding of AvailableElasticsearchNodes: filters a slice of pods for
the ones that are ready. -/
def AvailableElasticsearchNodes (pods : List Pod) : List Pod :=
  pods.filter Pod.ready

/-- Modelled from the spec: version.MinInPods (package
pkg/controller/common/version, not in the provided sources) computes the
minimum version across the pods' version labels, aborting on any parse
failure; none when there are no pods. -/
def MinInPods (pods : List Pod) : Except String (Option Version) :=
  minVersions (pods.map Pod.versionLabel)

/-- Modelled from the spec: version.MinInStatefulSets computes the minimum
version across the node-group templates' version labels, aborting on any
parse failure; none when there are no node groups. -/
def MinInStatefulSets (ssets : List StatefulSetTemplate) : Except String (Option Version) :=
  minVersions (ssets.map StatefulSetTemplate.versionLabel)

/-- Embedding of State.fetchMinRunningVersion: a parse failure on either
the pods side or the StatefulSets side is logged and returned as an error;
otherwise the smaller of the two per-side minima (or the only available
one) is returned. -/
def State.fetchMinRunningVersion (rs : ResourcesState) : Except String (Option Version) :=
  match MinInPods rs.allPods with
  | Except.error e => Except.error e
  | Except.ok minPodVersion =>
    match MinInStatefulSets rs.statefulSets with
    | Except.error e => Except.error e
    | Except.ok minSsetVersion =>
      match minPodVersion with
      | none => Except.ok minSsetVersion
      | some p =>
        match minSsetVersion with
        | none => Except.ok (some p)
        | some q =>
          if Version.GT p q then Except.ok (some q) else Except.ok (some p)

/-- Embedding of State.updateWithPhase: recompute availableNodes from the
current pods' readiness, set the phase, store the minimum running version
when its computation succeeds with a value (on error the version field is
left as it was and the update moves on), and set health from the observed
cluster health when present and non-empty, else unknown. -/
def State.updateWithPhase (s : State) (phase : String) (rs : ResourcesState)
    (observedState : ObserverState) : State :=
  let st1 := { s.status with
    availableNodes := (AvailableElasticsearchNodes rs.currentPods).length,
    phase := phase }
  let st2 :=
    match State.fetchMinRunningVersion rs with
    | Except.error _ => st1
    | Except.ok none => st1
    | Except.ok (some lowestVersion) =>
      { st1 with version := lowestVersion.toVersionString }
  let st3 :=
    match observedState.clusterHealth with
    | some h =>
      if h.healthStatus ≠ "" then { st2 with health := h.healthStatus }
      else { st2 with health := ElasticsearchUnknownHealth }
    | none => { st2 with health := ElasticsearchUnknownHealth }
  { s with status := st3 }

/-- Embedding of UpdateElasticsearchState: update keeping the current
phase. -/
def State.UpdateElasticsearchState (s : State) (rs : ResourcesState)
    (observedState : ObserverState) : State :=
  s.updateWithPhase s.status.phase rs observedState

/-- Embedding of UpdateElasticsearchReady. -/
def State.UpdateElasticsearchReady (s : State) (rs : ResourcesState)
    (observedState : ObserverState) : State :=
  s.updateWithPhase ElasticsearchReadyPhase rs observedState

/-- Embedding of IsElasticsearchReady. -/
def State.IsElasticsearchReady (s : State) : Bool :=
  s.status.phase == ElasticsearchReadyPhase

/-- Embedding of UpdateElasticsearchApplyingChanges: recompute
availableNodes from the given pods, set phase ApplyingChanges and health
red, without consulting any health observation. -/
def State.UpdateElasticsearchApplyingChanges (s : State) (pods : List Pod) : State :=
  { s with status := { s.status with
      availableNodes := (AvailableElasticsearchNodes pods).length,
      phase := ElasticsearchApplyingChangesPhase,
      health := ElasticsearchRedHealth } }

/-- Embedding of UpdateElasticsearchMigrating: enqueue the Normal/Delayed
event and update with phase MigratingData. -/
def State.UpdateElasticsearchMigrating (s : State) (rs : ResourcesState)
    (observedState : ObserverState) : State :=
  (s.AddEvent EventType.normal EventReasonDelayed
      "Requested topology change delayed by data migration. Ensure index settings allow node removal."
    ).updateWithPhase ElasticsearchMigratingDataPhase rs observedState

/-- Embedding of UpdateElasticsearchShutdownStalled: enqueue the
Warning/Stalled event including the detail and update with phase
NodeShutdownStalled. -/
def State.UpdateElasticsearchShutdownStalled (s : State) (rs : ResourcesState)
    (observedState : ObserverState) (reasonDetail : String) : State :=
  (s.AddEvent EventType.warning EventReasonStalled
      ("Requested topology change is stalled. User intervention maybe required if this condition persists. "
        ++ reasonDetail)
    ).updateWithPhase ElasticsearchNodeShutdownStalledPhase rs observedState

/-- Modelled from the spec: the rank of a health value in the degradation
order red < yellow < unknown < green; an unrecognized health string ranks
with unknown. -/
def healthRank (h : String) : Nat :=
  if h = ElasticsearchRedHealth then 0
  else if h = ElasticsearchYellowHealth then 1
  else if h = ElasticsearchGreenHealth then 3
  else 2

/-- Modelled from the spec: ElasticsearchStatus.IsDegraded (defined in the
apis package, not in the provided sources) holds when health moved from a
better state to a worse one or availableNodes dropped. -/
def ElasticsearchStatus.IsDegraded (current previous : ElasticsearchStatus) : Bool :=
  healthRank current.health < healthRank previous.health
    || current.availableNodes < previous.availableNodes

/-- Embedding of State.Apply: compare the previous status (on the cluster
resource) with the current one; if deep-equal, return the events and no
resource update; otherwise enqueue a Warning/Unhealthy event when the new
status is degraded, commit the new status onto the resource and return it.
The mutated tracker is returned alongside since Apply updates the state in
place in the source. -/
def State.Apply (s : State) : (List Event × Option Elasticsearch) × State :=
  let previous := s.cluster.esStatus
  let current := s.status
  if previous = current then ((s.Events, none), s)
  else
    let s1 :=
      if current.IsDegraded previous then
        s.AddEvent EventType.warning EventReasonUnhealthy ("Elasticsearch cluster health degraded")
      else s
    let s2 := { s1 with cluster := { s1.cluster with esStatus := current } }
    ((s2.Events, some s2.cluster), s2)

/-- Embedding of UpdateElasticsearchInvalid: set phase Invalid and enqueue
a Warning/Validation event carrying the error text. -/
def State.UpdateElasticsearchInvalid (s : State) (errMsg : String) : State :=
  ({ s with status := { s.status with phase := ElasticsearchResourceInvalid } }
    ).AddEvent EventType.warning EventReasonValidation errMsg

/-! ### JSON bodies and the jsondiff comparison

Modelled from the spec: the structural, order-insensitive JSON comparison
with superset semantics used by the convergence engine lives in the
third-party jsondiff package, not in the provided sources. Bodies are
modelled as already-parsed JSON trees; numbers as integers (no claim
depends on numeric width or floats). -/

inductive Json where
  | null
  | bool (b : Bool)
  | num (n : Int)
  | str (s : String)
  | arr (items : List Json)
  | obj (fields : List (String × Json))
deriving Repr

inductive JsondiffResult where
  | fullMatch
  | supersetMatch
  | noMatch
deriving DecidableEq, Repr

/-- The combination of two sub-comparison results: any mismatch dominates,
then any superset-only match, and only fully matching parts combine to a
full match. -/
def JsondiffResult.meet : JsondiffResult → JsondiffResult → JsondiffResult
  | JsondiffResult.noMatch, _ => JsondiffResult.noMatch
  | _, JsondiffResult.noMatch => JsondiffResult.noMatch
  | JsondiffResult.supersetMatch, _ => JsondiffResult.supersetMatch
  | _, JsondiffResult.supersetMatch => JsondiffResult.supersetMatch
  | JsondiffResult.fullMatch, JsondiffResult.fullMatch => JsondiffResult.fullMatch

/-- Order-insensitive field lookup in a JSON object. -/
def lookupField (k : String) : List (String × Json) → Option Json
  | [] => none
  | (k', v) :: rest => if k' = k then some v else lookupField k rest

/-- Whether the observed object carries a field absent from the desired
object (the superset case). -/
def hasExtraField (obs des : List (String × Json)) : Bool :=
  obs.any (fun p => (lookupField p.1 des).isNone)

theorem sizeOf_lookupField {k : String} :
    ∀ {l : List (String × Json)} {w : Json}, lookupField k l = some w → sizeOf w < sizeOf l := by
  intro l
  induction l with
  | nil => intro w h; simp [lookupField] at h
  | cons p rest ih =>
    intro w h
    obtain ⟨k', v⟩ := p
    simp only [lookupField] at h
    by_cases hk : k' = k
    · simp [hk] at h
      subst h
      simp
      omega
    · simp [hk] at h
      have hih := ih h
      simp
      omega

mutual

/-- Modelled from the spec: jsondiff.Compare(observed, desired). Primitives
must be equal; arrays must have the same length and match pointwise;
objects require every desired field to be present and matching in the
observed object, with extra observed fields downgrading a full match to a
superset match; any other relationship is no match. -/
def jsondiffCompare : Json → Json → JsondiffResult
  | Json.null, Json.null => JsondiffResult.fullMatch
  | Json.bool a, Json.bool b =>
    if a = b then JsondiffResult.fullMatch else JsondiffResult.noMatch
  | Json.num a, Json.num b =>
    if a = b then JsondiffResult.fullMatch else JsondiffResult.noMatch
  | Json.str a, Json.str b =>
    if a = b then JsondiffResult.fullMatch else JsondiffResult.noMatch
  | Json.arr xs, Json.arr ys => jsondiffArr xs ys
  | Json.obj fs, Json.obj gs =>
    (jsondiffDesFields fs gs).meet
      (if hasExtraField fs gs then JsondiffResult.supersetMatch
       else JsondiffResult.fullMatch)
  | _, _ => JsondiffResult.noMatch
termination_by a b => sizeOf a + sizeOf b
decreasing_by
  all_goals simp_wf
  all_goals first
    | (have hx := sizeOf_lookupField h; omega)
    | omega

/-- Pointwise comparison of an observed and a desired JSON array. -/
def jsondiffArr : List Json → List Json → JsondiffResult
  | [], [] => JsondiffResult.fullMatch
  | x :: xs, y :: ys => (jsondiffCompare x y).meet (jsondiffArr xs ys)
  | _, _ => JsondiffResult.noMatch
termination_by xs ys => sizeOf xs + sizeOf ys
decreasing_by
  all_goals simp_wf
  all_goals first
    | (have hx := sizeOf_lookupField h; omega)
    | omega

/-- Comparison of every desired field against the observed object. -/
def jsondiffDesFields (obs : List (String × Json)) : List (String × Json) → JsondiffResult
  | [] => JsondiffResult.fullMatch
  | (k, v) :: rest =>
    match h : lookupField k obs with
    | none => JsondiffResult.noMatch
    | some w => (jsondiffCompare w v).meet (jsondiffDesFields obs rest)
termination_by des => sizeOf obs + sizeOf des
decreasing_by
  all_goals simp_wf
  all_goals first
    | (have hx := sizeOf_lookupField h; omega)
    | omega

end

mutual

/-- The spec glossary's superset-match predicate, stated independently of
the jsondiff algorithm: jsonSubsetOf desired observed holds when every
field and value in the desired body is present and equal in the observed
body, regardless of extra observed fields; arrays pointwise, primitives
equal. -/
def jsonSubsetOf : Json → Json → Bool
  | Json.null, Json.null => true
  | Json.bool a, Json.bool b => a == b
  | Json.num a, Json.num b => a == b
  | Json.str a, Json.str b => a == b
  | Json.arr xs, Json.arr ys => jsonSubsetArr xs ys
  | Json.obj fs, Json.obj gs => jsonSubsetFields fs gs
  | _, _ => false
termination_by a b => sizeOf a + sizeOf b
decreasing_by
  all_goals simp_wf
  all_goals first
    | (have hx := sizeOf_lookupField h; omega)
    | omega

/-- Pointwise subset test between a desired and an observed JSON array. -/
def jsonSubsetArr : List Json → List Json → Bool
  | [], [] => true
  | x :: xs, y :: ys => jsonSubsetOf x y && jsonSubsetArr xs ys
  | _, _ => false
termination_by xs ys => sizeOf xs + sizeOf ys
decreasing_by
  all_goals simp_wf
  all_goals first
    | (have hx := sizeOf_lookupField h; omega)
    | omega

/-- Every desired field present and matching in the observed object. -/
def jsonSubsetFields : List (String × Json) → List (String × Json) → Bool
  | [], _ => true
  | (k, v) :: rest, gs =>
    match h : lookupField k gs with
    | none => false
    | some w => jsonSubsetOf v w && jsonSubsetFields rest gs
termination_by rest gs => sizeOf rest + sizeOf gs
decreasing_by
  all_goals simp_wf
  all_goals first
    | (have hx := sizeOf_lookupField h; omega)
    | omega

end

/-! ### Convergence engine and esconfig controller (package esconfig,
src/unnamed/part_000)

The HTTP client is a collaborator: client.Request(ctx, req) returns a
response pointer and an error. A transport failure is modelled as an
absent response together with an error message; dereferencing an absent
response is modelled as an explicit crash outcome (the nil-pointer panic
the Go code would hit). -/

/-- One HTTP response as the esconfig code consumes it: the status code,
the (already read) JSON body, and the outcome of reading the body stream
(ioutil.ReadAll), which can itself fail. -/
structure HTTPResponse where
  statusCode : Nat
  bodyReadErr : Option String
  body : Json

/-- The pair a Go HTTP client call returns: an optional response and an
optional transport error. -/
structure HTTPResult where
  resp : Option HTTPResponse
  transportErr : Option String

/-- Outcome of updateRequired: a boolean decision, an error, or a crash
(nil response dereferenced). -/
inductive URResult where
  | ok (needsUpdate : Bool)
  | err (e : String)
  | crash
deriving DecidableEq, Repr

/-- Embedding of updateRequired. The GET is issued with a bounded timeout
and its transport error is deliberately discarded by the source
(getResp, _ := client.Request(ctx, get) under the comment that errors are
handled by checking the status code); the decision then branches on the
status code of the response alone: 404 means create, any status other
than 200 is the unacceptable-status error, and on 200 the observed body
is compared with the desired body using the jsondiff superset
comparison. -/
def updateRequired (readResult : HTTPResult) (body : Json) : URResult :=
  match readResult.resp with
  | none => URResult.crash
  | some getResp =>
    if getResp.statusCode == 404 then URResult.ok true
    else if getResp.statusCode != 200 then URResult.err ("status unacceptable")
    else
      match getResp.bodyReadErr with
      | some e => URResult.err e
      | none =>
        let diff := jsondiffCompare getResp.body body
        if diff == JsondiffResult.supersetMatch || diff == JsondiffResult.fullMatch then
          URResult.ok false
        else URResult.ok true

/-- One declared convergence operation: target URL and desired body. -/
structure ConfigOperation where
  url : String
  body : Json

/-- The transport-level environment of one operation: the outcome of its
GET and the outcome of its PUT, were one issued. -/
structure OpEnv where
  readResult : HTTPResult
  writeResult : HTTPResult

/-- Outcome of ReconcileOperation. -/
inductive OpResult where
  | ok
  | err (e : String)
  | crash
deriving DecidableEq, Repr

/-- The source consults log.V(1).Enabled() after the PUT; verbose logging
is modelled as disabled, the production default. -/
def debugLogEnabled : Bool := false

/-- Embedding of ReconcileOperation: decide via updateRequired, stop on
its error, do nothing when no update is needed, otherwise issue the PUT.
The PUT's response status code is never consulted; with verbose logging
disabled the function returns the PUT's transport error (nil on
success), and with it enabled it would dereference the response to log
its body. The boolean reports whether a PUT was issued. -/
def ReconcileOperation (env : OpEnv) (op : ConfigOperation) : OpResult × Bool :=
  match updateRequired env.readResult op.body with
  | URResult.crash => (OpResult.crash, false)
  | URResult.err e => (OpResult.err e, false)
  | URResult.ok false => (OpResult.ok, false)
  | URResult.ok true =>
    let putResult := env.writeResult
    if debugLogEnabled then
      match putResult.resp with
      | none => (OpResult.crash, true)
      | some r =>
        match r.bodyReadErr with
        | some e => (OpResult.err e, true)
        | none => (OpResult.ok, true)
    else
      match putResult.transportErr with
      | some e => (OpResult.err e, true)
      | none => (OpResult.ok, true)

/-- How the loop over the declared operations ended. -/
inductive OpsEnd where
  | ok
  | failed (e : String)
  | crash
deriving DecidableEq, Repr

/-- The operation loop of doReconcile: run each operation in order and
stop at the first failing one. Returns how many operations were attempted
together with the ending. -/
def runOps : List (ConfigOperation × OpEnv) → Nat × OpsEnd
  | [] => (0, OpsEnd.ok)
  | (op, env) :: rest =>
    match ReconcileOperation env op with
    | (OpResult.ok, _) =>
      let r := runOps rest
      (r.1 + 1, r.2)
    | (OpResult.err e, _) => (1, OpsEnd.failed e)
    | (OpResult.crash, _) => (1, OpsEnd.crash)

/-- The reconcile.Result directive handed back to the controller runtime,
reduced to the field the source sets: Requeue. -/
structure ReconcileResult where
  requeue : Bool
deriving DecidableEq, Repr

/-- Outcome of a pass: the (Result, error) pair, or a crash. -/
inductive PassOutcome where
  | done (res : ReconcileResult) (passErr : Option String)
  | crash
deriving DecidableEq, Repr

/-- The observable trace of one pass: its outcome, the events emitted on
the resource, and how many declared operations were attempted. -/
structure PassTrace where
  outcome : PassOutcome
  events : List Event
  attempted : Nat
deriving DecidableEq, Repr

/-- The collaborator outcomes doReconcile consumes: the result of
esc.ValidateCreate(), of fetching the referenced Elasticsearch cluster,
of building the Elasticsearch HTTP client, and the per-operation
transport environments (paired positionally with the declared
operations). -/
structure DoReconcileEnv where
  validationErr : Option String
  esFetchErr : Option String
  clientErr : Option String
  opEnvs : List OpEnv

/-- Embedding of doReconcile: validate (on failure, return the error with
an empty Result — Requeue is false — after validate emitted the
Warning/Validation event; k8s.EmitErrorEvent is modelled from the spec as
recording a Warning event with the given reason); then fetch the
referenced cluster (on failure, Requeue true with an association-error
event); then build the client (on failure, Requeue true); then run every
declared operation in order, requeueing on the first failure. -/
def doReconcile (env : DoReconcileEnv) (operations : List ConfigOperation) : PassTrace :=
  match env.validationErr with
  | some e =>
    { outcome := PassOutcome.done ⟨false⟩ (some e),
      events := [⟨EventType.warning, EventReasonValidation, e⟩],
      attempted := 0 }
  | none =>
    match env.esFetchErr with
    | some e =>
      { outcome := PassOutcome.done ⟨true⟩ (some e),
        events := [⟨EventType.warning, EventAssociationError, e⟩],
        attempted := 0 }
    | none =>
      match env.clientErr with
      | some e =>
        { outcome := PassOutcome.done ⟨true⟩ (some e), events := [], attempted := 0 }
      | none =>
        let r := runOps (operations.zip env.opEnvs)
        match r.2 with
        | OpsEnd.ok =>
          { outcome := PassOutcome.done ⟨false⟩ none, events := [], attempted := r.1 }
        | OpsEnd.failed e =>
          { outcome := PassOutcome.done ⟨true⟩ (some e), events := [], attempted := r.1 }
        | OpsEnd.crash =>
          { outcome := PassOutcome.crash, events := [], attempted := r.1 }

/-- The error FetchWithAssociations reports, carrying whether it is a
NotFound error; the live source never inspects that flag. -/
structure FetchError where
  isNotFound : Bool
  msg : String
deriving DecidableEq, Repr

def EventCompatCheckError : String := "CompatCheckError"

/-- The collaborator outcomes of the top-level Reconcile: the initial
fetch, the unmanaged marker, the compatibility check (its boolean and its
error), and everything doReconcile consumes. -/
structure ReconcileEnv where
  fetchErr : Option FetchError
  unmanaged : Bool
  compatible : Bool
  compatErr : Option String
  inner : DoReconcileEnv

/-- Embedding of Reconcile: any error of the initial fetch — a NotFound
included — returns Requeue true carrying the error; an unmanaged resource
is a no-op success; a compatibility-check error or a negative
compatibility verdict ends the pass with an empty Result (and the
compatibility error, if any, after an error event); otherwise doReconcile
runs. -/
def Reconcile (env : ReconcileEnv) (operations : List ConfigOperation) : PassTrace :=
  match env.fetchErr with
  | some e =>
    { outcome := PassOutcome.done ⟨true⟩ (some e.msg), events := [], attempted := 0 }
  | none =>
    if env.unmanaged then
      { outcome := PassOutcome.done ⟨false⟩ none, events := [], attempted := 0 }
    else
      match env.compatErr with
      | some e =>
        { outcome := PassOutcome.done ⟨false⟩ (some e),
          events := [⟨EventType.warning, EventCompatCheckError, e⟩],
          attempted := 0 }
      | none =>
        if !env.compatible then
          { outcome := PassOutcome.done ⟨false⟩ none, events := [], attempted := 0 }
        else
          doReconcile env.inner operations

/-! ### Claims -/

/-- C8: for every list of pods and every tracker state,
UpdateElasticsearchApplyingChanges sets the status phase to ApplyingChanges
and sets health to red unconditionally — the helper consults no health
observation at all, so this holds in particular when the available
observation reports green — while recomputing availableNodes from the
given pods' readiness. -/
theorem applyingChanges_forces_red (s : State) (pods : List Pod) :
    (s.UpdateElasticsearchApplyingChanges pods).status.phase
        = ElasticsearchApplyingChangesPhase ∧
    (s.UpdateElasticsearchApplyingChanges pods).status.health
        = ElasticsearchRedHealth ∧
    (s.UpdateElasticsearchApplyingChanges pods).status.availableNodes
        = (AvailableElasticsearchNodes pods).length :=
  ⟨rfl, rfl, rfl⟩

/-- C9: Apply is idempotent with respect to the resource update: after one
call to Apply, a second call on the resulting tracker state (with no
intervening status mutation) finds the previous and new status equal and
returns no resource update — only the events queued so far. -/
theorem apply_idempotent (s : State) :
    ((State.Apply (State.Apply s).2).1).2 = none ∧
    ((State.Apply (State.Apply s).2).1).1 = ((State.Apply s).2).Events := by
  unfold State.Apply State.AddEvent State.Events
  by_cases h : s.cluster.esStatus = s.status
  · simp [h]
  · by_cases hd : s.status.IsDegraded s.cluster.esStatus
    · simp [h, hd]
    · simp [h, hd]

/-- C10: when the convergence engine issues a PUT, the status code of the
write response is never inspected: for every write response (any status
code, 4xx/5xx included), ReconcileOperation returns success as long as the
PUT did not fail at the transport level. The first conclusion shows the
result does not depend on the write response at all; the second shows the
outcome is success with exactly one write issued. -/
theorem put_status_never_inspected (env : OpEnv) (op : ConfigOperation)
    (r' : Option HTTPResponse)
    (hneed : updateRequired env.readResult op.body = URResult.ok true)
    (hok : env.writeResult.transportErr = none) :
    ReconcileOperation { env with writeResult := { env.writeResult with resp := r' } } op
        = ReconcileOperation env op ∧
    ReconcileOperation env op = (OpResult.ok, true) := by
  unfold ReconcileOperation debugLogEnabled
  rw [hneed]
  simp [hok]

/-- Witness for C10: a PUT answered with a 500 status and no transport
error is reported as success, indistinguishable from an accepted write. -/
theorem put_status_never_inspected_witness :
    ReconcileOperation
      { readResult := { resp := some { statusCode := 404, bodyReadErr := none, body := Json.null },
                        transportErr := none },
        writeResult := { resp := some { statusCode := 500, bodyReadErr := none, body := Json.null },
                         transportErr := none } }
      { url := "/_snapshot/my_repository", body := Json.null }
        = (OpResult.ok, true) :=
  (put_status_never_inspected
      { readResult := { resp := some { statusCode := 404, bodyReadErr := none, body := Json.null },
                        transportErr := none },
        writeResult := { resp := some { statusCode := 500, bodyReadErr := none, body := Json.null },
                         transportErr := none } }
      { url := "/_snapshot/my_repository", body := Json.null }
      (some { statusCode := 500, bodyReadErr := none, body := Json.null })
      rfl rfl).2

/-- C1: when spec validation fails during a reconcile pass, doReconcile
ends the pass with an empty reconcile.Result — Requeue is false, so the
returned directive requests no requeue — after recording the
Warning/Validation event, and no convergence operation is attempted. (The
validation error itself is still returned alongside the empty Result.) -/
theorem validation_failure_no_requeue (env : DoReconcileEnv)
    (ops : List ConfigOperation) (e : String)
    (h : env.validationErr = some e) :
    (doReconcile env ops).outcome = PassOutcome.done ⟨false⟩ (some e) ∧
    (doReconcile env ops).events = [⟨EventType.warning, EventReasonValidation, e⟩] ∧
    (doReconcile env ops).attempted = 0 := by
  unfold doReconcile
  rw [h]
  exact ⟨rfl, rfl, rfl⟩

/-- Witness for C1: a concrete pass whose spec validation fails. -/
theorem validation_failure_no_requeue_witness :
    (doReconcile
        { validationErr := some ("elasticsearchRef.name: Required value"),
          esFetchErr := none, clientErr := none, opEnvs := [] }
        []).outcome
      = PassOutcome.done ⟨false⟩ (some ("elasticsearchRef.name: Required value")) :=
  (validation_failure_no_requeue _ _ ("elasticsearchRef.name: Required value") rfl).1

/-- C3 counterexample: the claim says a NotFound on the initial fetch ends
the pass as a successful no-op with no retry and no error; in the live
source any fetch error — a NotFound included — returns Requeue true
together with the error (the NotFound no-op branch is commented out). At
this concrete input the pass requeues and carries the error. -/
theorem fetch_notFound_requeues_counterexample :
    Reconcile
        { fetchErr := some { isNotFound := true, msg := "elasticsearchconfig not found" },
          unmanaged := false, compatible := true, compatErr := none,
          inner := { validationErr := none, esFetchErr := none, clientErr := none, opEnvs := [] } }
        []
      = { outcome := PassOutcome.done ⟨true⟩ (some ("elasticsearchconfig not found")),
          events := [], attempted := 0 } :=
  rfl

/-- C3 amended: when the initial fetch of the managed resource reports any
error, a NotFound included, the pass does not end as a no-op success: the
returned directive requests a requeue and carries the error. -/
theorem fetch_error_requeues (env : ReconcileEnv) (ops : List ConfigOperation)
    (e : FetchError) (h : env.fetchErr = some e) :
    (Reconcile env ops).outcome = PassOutcome.done ⟨true⟩ (some e.msg) := by
  unfold Reconcile
  rw [h]

/-- Witness for the amended C3, at a NotFound fetch error. -/
theorem fetch_error_requeues_witness :
    (Reconcile
        { fetchErr := some { isNotFound := true, msg := "esc resource gone" },
          unmanaged := false, compatible := true, compatErr := none,
          inner := { validationErr := none, esFetchErr := none, clientErr := none, opEnvs := [] } }
        []).outcome
      = PassOutcome.done ⟨true⟩ (some ("esc resource gone")) :=
  fetch_error_requeues _ [] { isNotFound := true, msg := "esc resource gone" } rfl

/-- C4 counterexample: the claim says every transport-level failure of the
convergence read (timeouts included) is reported to the caller as a
transient, retryable failure and never silently ignored. In the source the
read's error is discarded (getResp, _ := client.Request): when the
transport reports a timeout but a response is still observed, the
operation is treated as converged and no failure is reported at all; when
the response is absent — the ordinary Go outcome of a failed request —
the code dereferences a nil response instead of returning the error. -/
theorem read_transport_error_ignored_counterexample :
    updateRequired
        { resp := some { statusCode := 200, bodyReadErr := none, body := Json.null },
          transportErr := some ("context deadline exceeded") }
        Json.null
      = URResult.ok false ∧
    updateRequired { resp := none, transportErr := some ("connection refused") } Json.null
      = URResult.crash := by
  constructor
  · simp [updateRequired, jsondiffCompare]
  · rfl

/-- C4 amended: the convergence read is issued under an explicit deadline,
but its transport-level failure is not reported to the caller: the
returned decision of updateRequired does not depend on the transport
error at all (first conjunct: any two transport errors, or none, yield the
same result), and when the failure leaves no response to inspect the pass
crashes on a nil dereference rather than surfacing a retryable error
(second conjunct). -/
theorem read_transport_error_ignored (respObserved : Option HTTPResponse)
    (e1 e2 : Option String) (body : Json) :
    updateRequired { resp := respObserved, transportErr := e1 } body
        = updateRequired { resp := respObserved, transportErr := e2 } body ∧
    updateRequired { resp := none, transportErr := e1 } body = URResult.crash :=
  ⟨rfl, rfl⟩

theorem not_GTE_eq_LT (a b : Version) : (!(Version.GTE a b)) = Version.LT a b := by
  unfold Version.GTE Version.LT
  cases a.compareTo b <;> rfl

/-- C5: for every pair of well-formed versions, isValidUpgrade returns true
iff the destination's major equals the source's major or exceeds it by
exactly one, and the destination is strictly greater than the source — so
equality, any downgrade and any other major gap are invalid. -/
theorem isValidUpgrade_policy (s1 s2 : String) (v1 v2 : Version)
    (h1 : Version.parse s1 = Except.ok v1) (h2 : Version.parse s2 = Except.ok v2) :
    (isValidUpgrade s1 s2 = Except.ok true ↔
      ((v2.major = v1.major ∨ v2.major = v1.major + 1) ∧ Version.LT v1 v2 = true)) := by
  unfold isValidUpgrade
  rw [h1, h2]
  simp only [Except.ok.injEq, Bool.and_eq_true, Bool.or_eq_true, beq_iff_eq,
    not_GTE_eq_LT]

/-- Witness for C5: a one-major bump to a strictly greater version is a
valid upgrade. -/
theorem isValidUpgrade_policy_witness :
    isValidUpgrade ("7.17.3") ("8.2.0") = Except.ok true :=
  (isValidUpgrade_policy ("7.17.3") ("8.2.0") ⟨7, 17, 3, ""⟩ ⟨8, 2, 0, ""⟩ rfl rfl).mpr
    ⟨Or.inr rfl, rfl⟩

/-- C2 counterexample: the claim says a version-label parse failure on one
source leaves the minimum from the other, well-formed side in use, so that
the status version is still updated. Concretely: with an unparsable pod
label and a well-formed node-group label at 7.9.1, the claim expects the
status version to become 7.9.1; the source aborts fetchMinRunningVersion
on the pods-side failure and leaves the status version at its previous
value 7.8.0. -/
theorem minversion_other_side_unused_counterexample :
    MinInStatefulSets [⟨"7.9.1"⟩] = Except.ok (some ⟨7, 9, 1, ""⟩) ∧
    (State.updateWithPhase
        ⟨⟨⟨3, "Ready", "green", "7.8.0"⟩⟩, ⟨3, "Ready", "green", "7.8.0"⟩, []⟩
        ElasticsearchReadyPhase
        ⟨[⟨true, "not-a-version"⟩], [⟨true, "not-a-version"⟩], [⟨"7.9.1"⟩]⟩
        ⟨some ⟨"green"⟩⟩).status.version = "7.8.0" ∧
    ("7.8.0" : String) ≠ "7.9.1" :=
  ⟨rfl, rfl, by decide⟩

/-- C2 amended: a version-label parse failure on either source (pods or
node-group specs) aborts the whole minimum-version computation, so the
status version keeps its previous value — the minimum from the other,
well-formed side is not used. The failure stays confined to the version
field: phase and availableNodes are still updated, so the malformed label
does not block the rest of the status update. -/
theorem minversion_parse_failure_skips_version (s : State) (phase : String)
    (rs : ResourcesState) (obs : ObserverState) (e : String)
    (h : MinInPods rs.allPods = Except.error e ∨
         MinInStatefulSets rs.statefulSets = Except.error e) :
    (∃ e', State.fetchMinRunningVersion rs = Except.error e') ∧
    (s.updateWithPhase phase rs obs).status.version = s.status.version ∧
    (s.updateWithPhase phase rs obs).status.phase = phase ∧
    (s.updateWithPhase phase rs obs).status.availableNodes
        = (AvailableElasticsearchNodes rs.currentPods).length := by
  have hferr : ∃ e', State.fetchMinRunningVersion rs = Except.error e' := by
    unfold State.fetchMinRunningVersion
    rcases h with h | h
    · rw [h]
      exact ⟨e, rfl⟩
    · cases hp : MinInPods rs.allPods with
      | error e1 => exact ⟨e1, rfl⟩
      | ok mp =>
        rw [h]
        exact ⟨e, rfl⟩
  obtain ⟨e', he'⟩ := hferr
  refine ⟨⟨e', he'⟩, ?_, ?_, ?_⟩ <;>
  · unfold State.updateWithPhase
    rw [he']
    cases hobs : obs.clusterHealth with
    | none => simp
    | some hs => by_cases hne : hs.healthStatus ≠ "" <;> simp [hne]

/-- Witness for the amended C2: a malformed node-group label with
well-formed pod labels leaves the status version at its previous value. -/
theorem minversion_parse_failure_skips_version_witness :
    (State.updateWithPhase
        ⟨⟨⟨3, "Ready", "green", "7.8.0"⟩⟩, ⟨3, "Ready", "green", "7.8.0"⟩, []⟩
        ElasticsearchReadyPhase
        ⟨[⟨true, "7.10.0"⟩], [⟨true, "7.10.0"⟩], [⟨"bogus"⟩]⟩
        ⟨some ⟨"green"⟩⟩).status.version = "7.8.0" :=
  ((minversion_parse_failure_skips_version
      ⟨⟨⟨3, "Ready", "green", "7.8.0"⟩⟩, ⟨3, "Ready", "green", "7.8.0"⟩, []⟩
      ElasticsearchReadyPhase
      ⟨[⟨true, "7.10.0"⟩], [⟨true, "7.10.0"⟩], [⟨"bogus"⟩]⟩
      ⟨some ⟨"green"⟩⟩ "bogus: malformed version" (Or.inr rfl)).2).1

theorem runOps_ok_head (pre rest : List (ConfigOperation × OpEnv))
    (hpre : ∀ p ∈ pre, (ReconcileOperation p.2 p.1).1 = OpResult.ok) :
    runOps (pre ++ rest) = (pre.length + (runOps rest).1, (runOps rest).2) := by
  induction pre with
  | nil => simp [runOps]
  | cons p ps ih =>
    have hp := hpre p (List.mem_cons_self p ps)
    have hps : ∀ q ∈ ps, (ReconcileOperation q.2 q.1).1 = OpResult.ok :=
      fun q hq => hpre q (List.mem_cons_of_mem p hq)
    obtain ⟨op, env⟩ := p
    simp only [List.cons_append, runOps]
    rcases hro : ReconcileOperation env op with ⟨res, b⟩
    rw [hro] at hp
    simp only at hp
    subst hp
    simp only [List.append_eq, ih hps, List.length_cons, Prod.mk.injEq]
    exact ⟨by omega, trivial⟩

theorem reconcileOperation_unacceptable (env : OpEnv) (op : ConfigOperation)
    (r : HTTPResponse) (hr : env.readResult.resp = some r)
    (h404 : r.statusCode ≠ 404) (h200 : r.statusCode ≠ 200) :
    ReconcileOperation env op = (OpResult.err ("status unacceptable"), false) := by
  unfold ReconcileOperation updateRequired
  rw [hr]
  simp [h404, h200]

/-- C7: if some operation's read returns a status outside both 200 and 404
while every operation before it succeeded, that operation fails with the
unacceptable-status error, the pass attempts exactly the operations up to
and including it (none after it), and the failure is surfaced as
retryable: the directive requests a requeue and carries the error. -/
theorem unacceptable_status_halts (denv : DoReconcileEnv) (ops : List ConfigOperation)
    (pre post : List (ConfigOperation × OpEnv)) (op : ConfigOperation) (env : OpEnv)
    (r : HTTPResponse)
    (hv : denv.validationErr = none) (hf : denv.esFetchErr = none)
    (hc : denv.clientErr = none)
    (hzip : ops.zip denv.opEnvs = pre ++ (op, env) :: post)
    (hpre : ∀ p ∈ pre, (ReconcileOperation p.2 p.1).1 = OpResult.ok)
    (hr : env.readResult.resp = some r)
    (h404 : r.statusCode ≠ 404) (h200 : r.statusCode ≠ 200) :
    doReconcile denv ops
      = { outcome := PassOutcome.done ⟨true⟩ (some ("status unacceptable")),
          events := [], attempted := pre.length + 1 } := by
  have hbad := reconcileOperation_unacceptable env op r hr h404 h200
  have hrun : runOps (pre ++ (op, env) :: post)
      = (pre.length + 1, OpsEnd.failed ("status unacceptable")) := by
    rw [runOps_ok_head pre _ hpre]
    simp [runOps, hbad]
  unfold doReconcile
  rw [hv, hf, hc, hzip, hrun]

/-- Witness for C7: of two declared operations, the first one's read
answers 500; exactly one operation is attempted and the pass requeues with
the unacceptable-status error. -/
theorem unacceptable_status_halts_witness :
    doReconcile
        { validationErr := none, esFetchErr := none, clientErr := none,
          opEnvs :=
            [ { readResult := { resp := some { statusCode := 500, bodyReadErr := none, body := Json.null },
                                transportErr := none },
                writeResult := { resp := none, transportErr := none } },
              { readResult := { resp := some { statusCode := 404, bodyReadErr := none, body := Json.null },
                                transportErr := none },
                writeResult := { resp := none, transportErr := none } } ] }
        [ { url := "/_cluster/settings", body := Json.null },
          { url := "/_snapshot/my_repository", body := Json.null } ]
      = { outcome := PassOutcome.done ⟨true⟩ (some ("status unacceptable")),
          events := [], attempted := 1 } :=
  unacceptable_status_halts _ _ []
    [({ url := "/_snapshot/my_repository", body := Json.null },
      { readResult := { resp := some { statusCode := 404, bodyReadErr := none, body := Json.null },
                        transportErr := none },
        writeResult := { resp := none, transportErr := none } })]
    { url := "/_cluster/settings", body := Json.null }
    { readResult := { resp := some { statusCode := 500, bodyReadErr := none, body := Json.null },
                      transportErr := none },
      writeResult := { resp := none, transportErr := none } }
    { statusCode := 500, bodyReadErr := none, body := Json.null }
    rfl rfl rfl rfl (by simp) rfl (by decide) (by decide)

theorem meet_ne_noMatch (a b : JsondiffResult) :
    (a.meet b ≠ JsondiffResult.noMatch) ↔
      (a ≠ JsondiffResult.noMatch ∧ b ≠ JsondiffResult.noMatch) := by
  cases a <;> cases b <;> simp [JsondiffResult.meet]

mutual

/-- The jsondiff comparison yields a full or superset match exactly when
the desired body is structurally contained in the observed body in the
sense of the spec glossary's superset-match predicate. -/
theorem jsondiff_eq_subset : ∀ obs des : Json,
    (jsondiffCompare obs des ≠ JsondiffResult.noMatch) ↔ jsonSubsetOf des obs = true
  | Json.null, Json.null => by simp [jsondiffCompare, jsonSubsetOf]
  | Json.null, Json.bool _ => by simp [jsondiffCompare, jsonSubsetOf]
  | Json.null, Json.num _ => by simp [jsondiffCompare, jsonSubsetOf]
  | Json.null, Json.str _ => by simp [jsondiffCompare, jsonSubsetOf]
  | Json.null, Json.arr _ => by simp [jsondiffCompare, jsonSubsetOf]
  | Json.null, Json.obj _ => by simp [jsondiffCompare, jsonSubsetOf]
  | Json.bool _, Json.null => by simp [jsondiffCompare, jsonSubsetOf]
  | Json.bool a, Json.bool b => by
    by_cases h : a = b
    · simp [jsondiffCompare, jsonSubsetOf, h]
    · simp [jsondiffCompare, jsonSubsetOf, h, Ne.symm h]
  | Json.bool _, Json.num _ => by simp [jsondiffCompare, jsonSubsetOf]
  | Json.bool _, Json.str _ => by simp [jsondiffCompare, jsonSubsetOf]
  | Json.bool _, Json.arr _ => by simp [jsondiffCompare, jsonSubsetOf]
  | Json.bool _, Json.obj _ => by simp [jsondiffCompare, jsonSubsetOf]
  | Json.num _, Json.null => by simp [jsondiffCompare, jsonSubsetOf]
  | Json.num _, Json.bool _ => by simp [jsondiffCompare, jsonSubsetOf]
  | Json.num a, Json.num b => by
    by_cases h : a = b
    · simp [jsondiffCompare, jsonSubsetOf, h]
    · simp [jsondiffCompare, jsonSubsetOf, h, Ne.symm h]
  | Json.num _, Json.str _ => by simp [jsondiffCompare, jsonSubsetOf]
  | Json.num _, Json.arr _ => by simp [jsondiffCompare, jsonSubsetOf]
  | Json.num _, Json.obj _ => by simp [jsondiffCompare, jsonSubsetOf]
  | Json.str _, Json.null => by simp [jsondiffCompare, jsonSubsetOf]
  | Json.str _, Json.bool _ => by simp [jsondiffCompare, jsonSubsetOf]
  | Json.str _, Json.num _ => by simp [jsondiffCompare, jsonSubsetOf]
  | Json.str a, Json.str b => by
    by_cases h : a = b
    · simp [jsondiffCompare, jsonSubsetOf, h]
    · simp [jsondiffCompare, jsonSubsetOf, h, Ne.symm h]
  | Json.str _, Json.arr _ => by simp [jsondiffCompare, jsonSubsetOf]
  | Json.str _, Json.obj _ => by simp [jsondiffCompare, jsonSubsetOf]
  | Json.arr _, Json.null => by simp [jsondiffCompare, jsonSubsetOf]
  | Json.arr _, Json.bool _ => by simp [jsondiffCompare, jsonSubsetOf]
  | Json.arr _, Json.num _ => by simp [jsondiffCompare, jsonSubsetOf]
  | Json.arr _, Json.str _ => by simp [jsondiffCompare, jsonSubsetOf]
  | Json.arr xs, Json.arr ys => by
    have h := jsondiff_eq_subset_arr xs ys
    simpa [jsondiffCompare, jsonSubsetOf] using h
  | Json.arr _, Json.obj _ => by simp [jsondiffCompare, jsonSubsetOf]
  | Json.obj _, Json.null => by simp [jsondiffCompare, jsonSubsetOf]
  | Json.obj _, Json.bool _ => by simp [jsondiffCompare, jsonSubsetOf]
  | Json.obj _, Json.num _ => by simp [jsondiffCompare, jsonSubsetOf]
  | Json.obj _, Json.str _ => by simp [jsondiffCompare, jsonSubsetOf]
  | Json.obj _, Json.arr _ => by simp [jsondiffCompare, jsonSubsetOf]
  | Json.obj fs, Json.obj gs => by
    have hf := jsondiff_eq_subset_fields fs gs
    by_cases he : hasExtraField fs gs <;>
      simp [jsondiffCompare, jsonSubsetOf, he, meet_ne_noMatch, hf]
termination_by obs des => sizeOf obs + sizeOf des
decreasing_by
  all_goals simp_wf
  all_goals omega

/-- Array part of the equivalence: pointwise. -/
theorem jsondiff_eq_subset_arr : ∀ obsL desL : List Json,
    (jsondiffArr obsL desL ≠ JsondiffResult.noMatch) ↔ jsonSubsetArr desL obsL = true
  | [], [] => by simp [jsondiffArr, jsonSubsetArr]
  | [], _ :: _ => by simp [jsondiffArr, jsonSubsetArr]
  | _ :: _, [] => by simp [jsondiffArr, jsonSubsetArr]
  | x :: xs, y :: ys => by
    have h1 := jsondiff_eq_subset x y
    have h2 := jsondiff_eq_subset_arr xs ys
    simp [jsondiffArr, jsonSubsetArr, meet_ne_noMatch, h1, h2]
termination_by obsL desL => sizeOf obsL + sizeOf desL
decreasing_by
  all_goals simp_wf
  all_goals omega

/-- Object part of the equivalence: every desired field present and
matching in the observed object. -/
theorem jsondiff_eq_subset_fields : ∀ obsF desF : List (String × Json),
    (jsondiffDesFields obsF desF ≠ JsondiffResult.noMatch) ↔
      jsonSubsetFields desF obsF = true
  | obsF, [] => by simp [jsondiffDesFields, jsonSubsetFields]
  | obsF, (k, v) :: rest => by
    simp only [jsondiffDesFields, jsonSubsetFields]
    split
    · simp
    · rename_i w hl
      have hsz := sizeOf_lookupField hl
      have h1 := jsondiff_eq_subset w v
      have h2 := jsondiff_eq_subset_fields obsF rest
      simp [meet_ne_noMatch, h1, h2]
termination_by obsF desF => sizeOf obsF + sizeOf desF
decreasing_by
  all_goals simp_wf
  all_goals first
    | (have hx := sizeOf_lookupField hl; omega)
    | omega

end

/-- C6: for every convergence operation whose read returns a 200 status,
a write is performed if and only if the observed body is neither an exact
structural match nor a superset of the desired body — equivalently, iff
the desired body is not structurally contained in the observed body; in
particular a desired body that is a subset of the observed body (extra
observed fields) causes zero writes. -/
theorem write_iff_not_subset (env : OpEnv) (op : ConfigOperation) (r : HTTPResponse)
    (hr : env.readResult.resp = some r) (h200 : r.statusCode = 200)
    (hbody : r.bodyReadErr = none) :
    (ReconcileOperation env op).2 = !(jsonSubsetOf op.body r.body) := by
  have key := jsondiff_eq_subset r.body op.body
  cases hd : jsondiffCompare r.body op.body <;> rw [hd] at key <;> simp at key
  all_goals unfold ReconcileOperation updateRequired debugLogEnabled
  all_goals rw [hr]
  all_goals cases hw : env.writeResult.transportErr <;> simp [h200, hbody, hd, key, hw]

/-- Witness for C6: the observed settings carry an extra field next to the
desired one; the desired body is a subset, so no PUT is issued. -/
theorem write_iff_not_subset_witness :
    (ReconcileOperation
        { readResult :=
            { resp := some
                { statusCode := 200,
                  bodyReadErr := none,
                  body := Json.obj
                    [("persistent", Json.obj [("a", Json.num 1), ("b", Json.num 2)])] },
              transportErr := none },
          writeResult := { resp := none, transportErr := none } }
        { url := "/_cluster/settings",
          body := Json.obj [("persistent", Json.obj [("a", Json.num 1)])] }).2
      = false := by
  have h := write_iff_not_subset
    { readResult :=
        { resp := some
            { statusCode := 200,
              bodyReadErr := none,
              body := Json.obj
                [("persistent", Json.obj [("a", Json.num 1), ("b", Json.num 2)])] },
          transportErr := none },
      writeResult := { resp := none, transportErr := none } }
    { url := "/_cluster/settings",
      body := Json.obj [("persistent", Json.obj [("a", Json.num 1)])] }
    { statusCode := 200,
      bodyReadErr := none,
      body := Json.obj [("persistent", Json.obj [("a", Json.num 1), ("b", Json.num 2)])] }
    rfl rfl rfl
  rw [h]
  simp [jsonSubsetOf, jsonSubsetFields, lookupField]

end CloudOnK8s
